import Mathlib

/-!
Verification development for the Homunculus message-response core.

The Python sources under `src/homunculus/` are shallowly embedded here:

* `prompt/builder.py` is embedded at the word level: every piece of text is
  represented by the list of its whitespace-delimited tokens (the exact view
  under which the default token counter `estimate_tokens`, a count of
  `\S+` matches, observes it).  Concatenating two text blocks across a
  whitespace boundary (all concatenations in `PromptBuilder.build` happen
  across `"\n"` or `"\n\n"` boundaries, or around an f-string splice that is
  itself delimited by whitespace) is list append in this view, and the word
  lists of the literal labels and fixed strings of the source are spelled out
  below.  The fixed system block produced by `_build_system_fixed` is taken
  as an arbitrary word list, so every character card is covered.
* `memory/qmd_adapter.py` is embedded with the external command runner as an
  explicit function argument (exactly the injectable `command_runner` of the
  source); `json.loads` is abstracted by letting a command result carry the
  already-parsed JSON value as an `Option JValue` (`none` = undecodable
  output), and the adapter additionally returns the list of runner
  invocations it made, as a ghost trace used to state call-pattern claims.
* `pipeline/response_pipeline.py` is embedded with each injected collaborator
  call modelled as an `Except PyExc` value (a Python call either returns a
  value or raises an exception); the pure prompt build is verified separately
  and its token estimate enters the pipeline as a plain number.  The second
  component of the embedding records whether `sender.send_message` was
  reached.
* `discord/mention_listener.py` (`MentionRouter.should_dispatch`) is embedded
  directly over a structural message model.
-/

namespace Homunculus

/-! ## Word-level text model for the prompt builder (`prompt/builder.py`)

A `Words` value is the list of `\S+` tokens of a Python string. -/

abbrev Words := List String

/-- `estimate_tokens` of `builder.py`: the number of whitespace-delimited
tokens, which in the word-list view is the length. -/
def estimate_tokens (text : Words) : Nat := text.length

/-- The words of the literal user-prompt leader `"Recent conversation:\n"`. -/
def userPrefixWords : Words := ["Recent", "conversation:"]

/-- The words of the literal user-prompt trailer
`"\n\nSomeone is speaking to you now. Reply naturally in-character and keep it concise."`. -/
def userSuffixWords : Words :=
  ["Someone", "is", "speaking", "to", "you", "now.", "Reply", "naturally",
   "in-character", "and", "keep", "it", "concise."]

/-- The words of the literal skill label `"Game rules reference:\n"`. -/
def gameRulesLabelWords : Words := ["Game", "rules", "reference:"]

/-- The words of the literal memory label `"Memory highlights:\n"`. -/
def memoryLabelWords : Words := ["Memory", "highlights:"]

/-- The words of the literal placeholder `"Memory highlights:\n- (none)"`. -/
def memoryPlaceholderWords : Words := ["Memory", "highlights:", "-", "(none)"]

/-- The words of the literal placeholder `"(no recent messages)"`. -/
def historyPlaceholderWords : Words := ["(no", "recent", "messages)"]

/-- The words of `"\n".join(lines)`: joining across a whitespace separator
concatenates the word lists. -/
def joinLines (lines : List Words) : Words := lines.flatten

/-- `_truncate_to_token_budget` of `builder.py` under the default counter:
a non-positive budget yields the empty text; a text already within budget is
returned unchanged; otherwise whole words are added while the running count
stays within budget, which for the default whitespace counter keeps exactly
the first `budget` words. -/
def truncate_to_token_budget (text : Words) (budget : Nat) : Words :=
  if budget = 0 then []
  else if text.length ≤ budget then text
  else text.take budget

/-- The selection loop of `_select_lines_with_budget`: include a line only if
its cost fits the remaining budget, stop at the first line that does not fit
(recording that the loop broke). -/
def selectGo {α : Type} (tc : α → Nat) : Nat → List α → List α × Bool
  | _, [] => ([], false)
  | remaining, line :: rest =>
    if tc line ≤ remaining then
      let r := selectGo tc (remaining - tc line) rest
      (line :: r.1, r.2)
    else ([], true)

/-- `_select_lines_with_budget` of `builder.py`: the loop above followed by
the final `len(selected) < len(lines)` check, or-ed into the flag. -/
def select_lines_with_budget {α : Type} (lines : List α) (budget : Nat)
    (tc : α → Nat) : List α × Bool :=
  let r := selectGo tc budget lines
  (r.1, r.2 || decide (r.1.length < lines.length))

/-- The selection loop of `_select_lines_from_tail_with_budget`: iterate over
the reversed lines, include while the cost fits, break at the first line that
does not fit. -/
def selectTailGo {α : Type} (tc : α → Nat) : Nat → List α → List α
  | _, [] => []
  | remaining, line :: rest =>
    if tc line ≤ remaining then line :: selectTailGo tc (remaining - tc line) rest
    else []

/-- `_select_lines_from_tail_with_budget` of `builder.py`: run the loop on the
reversed lines, reverse the selection back into chronological order, and
report truncation as `len(selected) < len(lines)`. -/
def select_lines_from_tail_with_budget {α : Type} (lines : List α)
    (budget : Nat) (tc : α → Nat) : List α × Bool :=
  let selected := (selectTailGo tc budget lines.reverse).reverse
  (selected, decide (selected.length < lines.length))

/-- Result record of `PromptBuilder.build` (`PromptBuildResult`). -/
structure PromptBuildResult where
  system_prompt : Words
  user_prompt : Words
  estimated_input_tokens : Nat
  included_memory_count : Nat
  included_history_count : Nat
  was_truncated : Bool
deriving Repr, DecidableEq

/-- The fixed token cost charged up front by `build`: the fixed system block
plus the literal user-prompt leader and trailer. -/
def initial_used_tokens (system_fixed : Words) : Nat :=
  estimate_tokens system_fixed + estimate_tokens userPrefixWords +
    estimate_tokens userSuffixWords

/-- `max(self._token_budget - used_tokens, 0)` of `build`. -/
def initial_budget_remaining (token_budget : Nat) (system_fixed : Words) : Nat :=
  token_budget - initial_used_tokens system_fixed

/-- Output of the skill-excerpt step of `build` (source lines 71-88). -/
structure SkillStep where
  skillSection : Words
  budget_remaining : Nat
  was_truncated : Bool

/-- The skill-excerpt step of `build`: when a non-empty excerpt is present and
budget remains, trim it to the remaining budget less the label cost; a
non-empty trimmed excerpt is emitted under the label and charged against the
budget, flagging truncation when it was cut; an excerpt trimmed away entirely
flags truncation with no section emitted. -/
def skill_step (skill_excerpt : Words) (budget_remaining : Nat)
    (was_truncated : Bool) : SkillStep :=
  if skill_excerpt ≠ [] ∧ 0 < budget_remaining then
    let excerpt := truncate_to_token_budget skill_excerpt
      (budget_remaining - estimate_tokens gameRulesLabelWords)
    if excerpt ≠ [] then
      { skillSection := gameRulesLabelWords ++ excerpt
        budget_remaining :=
          budget_remaining - estimate_tokens (gameRulesLabelWords ++ excerpt)
        was_truncated := was_truncated || decide (excerpt ≠ skill_excerpt) }
    else
      { skillSection := []
        budget_remaining := budget_remaining
        was_truncated := true }
  else
    { skillSection := []
      budget_remaining := budget_remaining
      was_truncated := was_truncated }

/-- The excerpt text that the skill step actually includes, recomputed from
the same inputs (empty when the section is skipped or trimmed away). -/
def skill_excerpt_included (token_budget : Nat)
    (system_fixed skill_excerpt : Words) : Words :=
  if skill_excerpt ≠ [] ∧ 0 < initial_budget_remaining token_budget system_fixed then
    truncate_to_token_budget skill_excerpt
      (initial_budget_remaining token_budget system_fixed -
        estimate_tokens gameRulesLabelWords)
  else []

/-- The skill section of the build dropped content: a non-empty excerpt was
supplied and what `build` includes for it differs from it. -/
def skill_dropped (token_budget : Nat) (system_fixed skill_excerpt : Words) : Prop :=
  skill_excerpt ≠ [] ∧
    skill_excerpt_included token_budget system_fixed skill_excerpt ≠ skill_excerpt

/-- Output of the memory step of `build` (source lines 90-105). -/
structure MemoryStep where
  memory_block : Words
  budget_remaining : Nat
  truncated : Bool
  included_count : Nat

/-- The memory step of `build`: select a greedy head run of rendered memory
lines within the remaining budget; a non-empty selection is emitted under the
memory label and charged (the `"\n\n"` joiner costs zero tokens); an empty
selection emits the placeholder line and charges nothing. -/
def memory_step (memory_lines : List Words) (budget_remaining : Nat) : MemoryStep :=
  if (select_lines_with_budget memory_lines budget_remaining estimate_tokens).1 ≠ [] then
    { memory_block := memoryLabelWords ++
        joinLines (select_lines_with_budget memory_lines budget_remaining estimate_tokens).1
      budget_remaining :=
        budget_remaining - estimate_tokens (memoryLabelWords ++
          joinLines (select_lines_with_budget memory_lines budget_remaining estimate_tokens).1)
      truncated := (select_lines_with_budget memory_lines budget_remaining estimate_tokens).2
      included_count :=
        (select_lines_with_budget memory_lines budget_remaining estimate_tokens).1.length }
  else
    { memory_block := memoryPlaceholderWords
      budget_remaining := budget_remaining
      truncated := (select_lines_with_budget memory_lines budget_remaining estimate_tokens).2
      included_count :=
        (select_lines_with_budget memory_lines budget_remaining estimate_tokens).1.length }

/-- Output of the history step of `build` (source lines 107-119). -/
structure HistoryStep where
  history_block : Words
  truncated : Bool
  included_count : Nat

/-- The history step of `build`: select a greedy tail run of rendered history
lines within the remaining budget; an empty selection emits the placeholder
line. -/
def history_step (history_lines : List Words) (budget_remaining : Nat) : HistoryStep :=
  { history_block :=
      if (select_lines_from_tail_with_budget history_lines budget_remaining
            estimate_tokens).1 ≠ [] then
        joinLines (select_lines_from_tail_with_budget history_lines budget_remaining
          estimate_tokens).1
      else historyPlaceholderWords
    truncated :=
      (select_lines_from_tail_with_budget history_lines budget_remaining estimate_tokens).2
    included_count :=
      (select_lines_from_tail_with_budget history_lines budget_remaining
        estimate_tokens).1.length }

/-- Output of the final clamp of `build` (source lines 123-141). -/
structure ClampStep where
  system_prompt : Words
  user_prompt : Words
  total_tokens : Nat
  entered : Bool

/-- The final two-pass clamp of `build`: when the combined count exceeds the
budget, first trim the system prompt to the budget remaining after the user
prompt, then, if still over, trim the user prompt to the budget remaining
after the trimmed system prompt. -/
def final_clamp (token_budget : Nat) (system_prompt user_prompt : Words) : ClampStep :=
  if token_budget < estimate_tokens system_prompt + estimate_tokens user_prompt then
    if token_budget <
        estimate_tokens (truncate_to_token_budget system_prompt
          (token_budget - estimate_tokens user_prompt)) +
        estimate_tokens user_prompt then
      { system_prompt := truncate_to_token_budget system_prompt
          (token_budget - estimate_tokens user_prompt)
        user_prompt := truncate_to_token_budget user_prompt
          (token_budget - estimate_tokens (truncate_to_token_budget system_prompt
            (token_budget - estimate_tokens user_prompt)))
        total_tokens :=
          estimate_tokens (truncate_to_token_budget system_prompt
            (token_budget - estimate_tokens user_prompt)) +
          estimate_tokens (truncate_to_token_budget user_prompt
            (token_budget - estimate_tokens (truncate_to_token_budget system_prompt
              (token_budget - estimate_tokens user_prompt))))
        entered := true }
    else
      { system_prompt := truncate_to_token_budget system_prompt
          (token_budget - estimate_tokens user_prompt)
        user_prompt := user_prompt
        total_tokens :=
          estimate_tokens (truncate_to_token_budget system_prompt
            (token_budget - estimate_tokens user_prompt)) +
          estimate_tokens user_prompt
        entered := true }
  else
    { system_prompt := system_prompt
      user_prompt := user_prompt
      total_tokens := estimate_tokens system_prompt + estimate_tokens user_prompt
      entered := false }

/-- `PromptBuilder.build` of `builder.py` in the word-level view, with the
fixed system block (`_build_system_fixed` output) and the rendered memory and
history lines as inputs.  Mirrors the source stage by stage: fixed costs,
skill excerpt, greedy memory selection, greedy tail history selection,
assembly, final two-pass clamp, and the reported flag
`was_truncated or total_tokens > budget`. -/
def build (token_budget : Nat) (system_fixed skill_excerpt : Words)
    (memory_lines history_lines : List Words) : PromptBuildResult :=
  let used_tokens := initial_used_tokens system_fixed
  let budget_remaining := initial_budget_remaining token_budget system_fixed
  let was_truncated := decide (token_budget < used_tokens)
  let s := skill_step skill_excerpt budget_remaining was_truncated
  let m := memory_step memory_lines s.budget_remaining
  let h := history_step history_lines m.budget_remaining
  let system_prompt := system_fixed ++ s.skillSection ++ m.memory_block
  let user_prompt := userPrefixWords ++ h.history_block ++ userSuffixWords
  let c := final_clamp token_budget system_prompt user_prompt
  { system_prompt := c.system_prompt
    user_prompt := c.user_prompt
    estimated_input_tokens := c.total_tokens
    included_memory_count := m.included_count
    included_history_count := h.included_count
    was_truncated :=
      ((s.was_truncated || m.truncated) || h.truncated) || c.entered ||
        decide (token_budget < c.total_tokens) }

/-- `PromptBuilder.__init__` keeps only the token budget we model; the
injectable counter is fixed to the default `estimate_tokens`. -/
structure PromptBuilder where
  token_budget : Int
deriving Repr, DecidableEq

/-- `PromptBuilder.__init__` of `builder.py`: raises `ValueError` for a
non-positive `token_budget`, otherwise stores it. -/
def mkPromptBuilder (token_budget : Int) : Except String PromptBuilder :=
  if token_budget ≤ 0 then Except.error "token_budget must be a positive integer."
  else Except.ok { token_budget := token_budget }

/-! ## Python string primitives

`str.strip` / `str.rstrip` / `len` / slicing, modelled character-wise
(Lean's `Char.isWhitespace` covers the ASCII whitespace Python strips in
the inputs at hand). -/

/-- Python `s.strip()`. -/
def pyStrip (s : String) : String :=
  String.mk (((s.toList.dropWhile Char.isWhitespace).reverse.dropWhile
    Char.isWhitespace).reverse)

/-- Python `s.rstrip()`. -/
def pyRStrip (s : String) : String :=
  String.mk ((s.toList.reverse.dropWhile Char.isWhitespace).reverse)

/-- Python `len(s)` (a character count). -/
def pyLen (s : String) : Nat := s.toList.length

/-- Python `s[:n]` (a character slice). -/
def pyTake (s : String) (n : Nat) : String := String.mk (s.toList.take n)

/-! ## JSON payloads of the retrieval tool (`memory/qmd_adapter.py`)

`json.loads` itself is external; a decoded payload is represented as a
`JValue`, and undecodable tool output as `Option.none`. -/

/-- A decoded JSON value.  Objects are association lists with the keys of the
Python dict (unique, first match looked up). -/
inductive JValue where
  | null : JValue
  | jbool : Bool → JValue
  | num : Rat → JValue
  | str : String → JValue
  | arr : List JValue → JValue
  | obj : List (String × JValue) → JValue
deriving Repr

/-- `item.get(key)` on a decoded object; `none` on any other shape. -/
def jGet (v : JValue) (key : String) : Option JValue :=
  match v with
  | JValue.obj fields => fields.lookup key
  | _ => none

/-- `_first_non_empty_str` of `qmd_adapter.py` over the looked-up values:
the first string value that is non-empty after stripping, stripped. -/
def first_non_empty_str : List (Option JValue) → String
  | [] => ""
  | some (JValue.str s) :: rest =>
    if pyStrip s ≠ "" then pyStrip s else first_non_empty_str rest
  | _ :: rest => first_non_empty_str rest

/-- `_pick_text` of `qmd_adapter.py`: text via the first present of
`text`, `content`, `snippet`, `body`, else a nested `document` object via
`text` then `content`. -/
def pick_text (item : JValue) : String :=
  let direct := first_non_empty_str
    [jGet item "text", jGet item "content", jGet item "snippet", jGet item "body"]
  if direct ≠ "" then direct
  else
    match jGet item "document" with
    | some (JValue.obj fields) =>
      first_non_empty_str
        [jGet (JValue.obj fields) "text", jGet (JValue.obj fields) "content"]
    | _ => ""

/-- `_pick_source` of `qmd_adapter.py`: source via the first present of
`source`, `path`, `file`, `file_path`, `uri`, default `"unknown"`. -/
def pick_source (item : JValue) : String :=
  let source := first_non_empty_str
    [jGet item "source", jGet item "path", jGet item "file",
     jGet item "file_path", jGet item "uri"]
  if source ≠ "" then source else "unknown"

/-- Decimal digits to a number, `none` when empty or a non-digit appears. -/
def digitsToNat? (chars : List Char) : Option Nat :=
  if chars.isEmpty then none
  else chars.foldl
    (fun acc c => match acc with
      | none => none
      | some n => if c.isDigit then some (n * 10 + (c.toNat - 48)) else none)
    (some 0)

/-- A plain decimal numeral `digits[.digits]` as a rational; models the
`float(...)` conversions the adapter applies to score strings.  Python's
`float` also accepts exponents and the inf/nan spellings; no claim depends on
those and they are left out. -/
def parseDecimal? (s : String) : Option Rat :=
  let core : String → Option Rat := fun body =>
    match body.splitOn "." with
    | [whole] => (digitsToNat? whole.toList).map (fun n => (n : Rat))
    | [whole, frac] =>
      if whole.isEmpty ∧ frac.isEmpty then none
      else
        match digitsToNat? (whole.toList ++ frac.toList) with
        | some n => some ((n : Rat) / ((10 : Rat) ^ frac.length))
        | none =>
          if whole.isEmpty then
            (digitsToNat? frac.toList).map (fun n => (n : Rat) / ((10 : Rat) ^ frac.length))
          else if frac.isEmpty then
            (digitsToNat? whole.toList).map (fun n => (n : Rat))
          else none
    | _ => none
  match s.toList with
  | '-' :: rest => (core (String.mk rest)).map Neg.neg
  | '+' :: rest => core (String.mk rest)
  | _ => core s

/-- `_to_float` of `qmd_adapter.py`: booleans give `0.0`; numbers are kept;
strings are stripped and parsed, `0.0` on failure; anything else gives `0.0`. -/
def to_float (value : Option JValue) : Rat :=
  match value with
  | some (JValue.jbool _) => 0
  | some (JValue.num q) => q
  | some (JValue.str s) => (parseDecimal? (pyStrip s)).getD 0
  | _ => 0

/-- `MemoryRecord` of `qmd_adapter.py`. -/
structure MemoryRecord where
  text : String
  source : String
  score : Rat
  mode : String
deriving Repr, DecidableEq

/-- `RetrievalError` of `qmd_adapter.py`. -/
structure RetrievalError where
  type : String
  message : String
  query_error_type : Option String := none
  fallback_error_type : Option String := none
deriving Repr, DecidableEq

/-- `RetrievalResult` of `qmd_adapter.py`. -/
structure RetrievalResult where
  records : List MemoryRecord
  mode : Option String
  used_fallback : Bool
  error : Option RetrievalError
deriving Repr, DecidableEq

/-- The array of candidate records inside a decoded payload: a top-level
array as is, an object through the first of the keys `results`, `items`,
`hits`, `data` holding an array (`ValueError` otherwise), any other shape a
`ValueError`. -/
def payloadItems : JValue → Except String (List JValue)
  | JValue.arr items => Except.ok items
  | JValue.obj fields =>
    match (["results", "items", "hits", "data"].findSome? fun key =>
        match jGet (JValue.obj fields) key with
        | some (JValue.arr items) => some items
        | _ => none) with
    | some items => Except.ok items
    | none => Except.error "qmd output has unsupported object shape"
  | _ => Except.error "qmd output has unsupported JSON shape"

/-- One candidate item to a record: non-objects are skipped, items without
extractable text are skipped, otherwise text/source/score are extracted. -/
def recordOfItem (mode : String) (item : JValue) : Option MemoryRecord :=
  match item with
  | JValue.obj _ =>
    let text := pick_text item
    if text = "" then none
    else some
      { text := text
        source := pick_source item
        score := to_float (jGet item "score")
        mode := mode }
  | _ => none

/-- `_parse_records` of `qmd_adapter.py` on the decoded payload (`none` is
stdout that `json.loads` rejects). -/
def parse_records (payload : Option JValue) (mode : String) :
    Except String (List MemoryRecord) :=
  match payload with
  | none => Except.error "qmd output is not valid JSON"
  | some p =>
    match payloadItems p with
    | Except.error e => Except.error e
    | Except.ok items => Except.ok (items.filterMap (recordOfItem mode))

/-! ## The retrieval adapter (`memory/qmd_adapter.py`) -/

/-- `_CommandResult` of `qmd_adapter.py`; `stdout` carries the decoded JSON
payload (`none` = undecodable output), `stderr` is dropped (never read by the
adapter logic). -/
structure CommandResult where
  returncode : Int
  stdout : Option JValue
  timed_out : Bool
  latency_ms : Nat
deriving Repr

/-- The settings slice `MemorySettings` the adapter reads
(`config/settings.py`). -/
structure MemorySettings where
  qmd_binary : String
  top_k : Int
  query_timeout_seconds : Rat
  fallback_timeout_seconds : Rat
deriving Repr, DecidableEq

/-- The settings slice `AgentSettings` the adapter reads. -/
structure AgentSettings where
  npc_name : String
deriving Repr, DecidableEq

/-- The settings slice `RuntimeSettings` the adapter reads. -/
structure RuntimeSettings where
  data_home : String
deriving Repr, DecidableEq

/-- The `AppSettings` slice the adapter reads. -/
structure AppSettings where
  agent : AgentSettings
  memory : MemorySettings
  runtime : RuntimeSettings
deriving Repr, DecidableEq

/-- One invocation of the external tool, as the adapter issues it:
the argument vector, the environment, and the timeout. -/
structure CallRecord where
  args : List String
  env : List (String × String)
  timeout : Rat
deriving Repr, DecidableEq

/-- `QmdAdapter` state: the settings, the injectable command runner (a call
either returns a `CommandResult` or raises, `Except.error ()`), the query
cap, and the base environment. -/
structure QmdAdapter where
  settings : AppSettings
  command_runner : List String → List (String × String) → Rat → Except Unit CommandResult
  max_query_chars : Nat
  environ : List (String × String)

/-- `_normalize_query` of `qmd_adapter.py`: strip, and when over the cap keep
the first `max_chars` characters right-stripped. -/
def normalize_query (query : String) (max_chars : Nat) : String :=
  let normalized := pyStrip query
  if pyLen normalized ≤ max_chars then normalized
  else pyRStrip (pyTake normalized max_chars)

/-- `_build_env` of `qmd_adapter.py`: the base environment with the two XDG
roots pointed into the per-namespace directory (a later binding wins, as a
dict update does). -/
def build_env (a : QmdAdapter) (npc_name : String) : List (String × String) :=
  let qmd_root := a.settings.runtime.data_home ++ "/agents/" ++ npc_name ++ "/qmd"
  a.environ ++
    [("XDG_CONFIG_HOME", qmd_root ++ "/xdg-config"),
     ("XDG_CACHE_HOME", qmd_root ++ "/xdg-cache")]

/-- `_Attempt` of `qmd_adapter.py`. -/
structure Attempt where
  result : Option RetrievalResult
  error_type : Option String
  latency_ms : Nat
deriving Repr, DecidableEq

/-- `QmdAdapter._attempt`: build the argument vector, invoke the runner, and
classify: a raising runner is `runner_exception`, then `timeout`, then
`non_zero_exit`, then `parse_error`, else a successful `RetrievalResult`
(`used_fallback` exactly for `search` mode).  The invocation made is returned
alongside, as the trace entry. -/
def attempt (a : QmdAdapter) (mode query : String) (top_k : Int)
    (timeout_seconds : Rat) (env : List (String × String)) : Attempt × CallRecord :=
  let args := [a.settings.memory.qmd_binary, mode, "--json", "-n", toString top_k, query]
  let call : CallRecord := { args := args, env := env, timeout := timeout_seconds }
  match a.command_runner args env timeout_seconds with
  | Except.error _ =>
    ({ result := none, error_type := some "runner_exception", latency_ms := 0 }, call)
  | Except.ok command_result =>
    if command_result.timed_out then
      ({ result := none, error_type := some "timeout",
         latency_ms := command_result.latency_ms }, call)
    else if command_result.returncode ≠ 0 then
      ({ result := none, error_type := some "non_zero_exit",
         latency_ms := command_result.latency_ms }, call)
    else
      match parse_records command_result.stdout mode with
      | Except.error _ =>
        ({ result := none, error_type := some "parse_error",
           latency_ms := command_result.latency_ms }, call)
      | Except.ok records =>
        ({ result := some
             { records := records
               mode := some mode
               used_fallback := mode == "search"
               error := none }
           error_type := none
           latency_ms := command_result.latency_ms }, call)

/-- `npc_name or self._settings.agent.npc_name`, then `.strip()`: Python `or`
falls through on `None` and on the empty string. -/
def effective_npc_name (a : QmdAdapter) (npc_name : Option String) : String :=
  pyStrip (match npc_name with
   | none => a.settings.agent.npc_name
   | some s => if s = "" then a.settings.agent.npc_name else s)

/-- `top_k if top_k is not None else self._settings.memory.top_k`. -/
def effective_top_k (a : QmdAdapter) (top_k : Option Int) : Int :=
  top_k.getD a.settings.memory.top_k

/-- `QmdAdapter.retrieve`: validate query, namespace and `top_k`; attempt
`query` mode with the query timeout; on a classified failure attempt `search`
mode with the fallback timeout; when both fail return the `both_failed`
terminal result carrying both classified kinds.  Alongside the result, the
list of runner invocations made (the ghost trace). -/
def retrieve (a : QmdAdapter) (query : String) (npc_name : Option String)
    (top_k : Option Int) : RetrievalResult × List CallRecord :=
  let normalized_query := normalize_query query a.max_query_chars
  if normalized_query = "" then
    ({ records := []
       mode := none
       used_fallback := false
       error := some
         { type := "invalid_query"
           message := "Query must contain non-whitespace characters." } }, [])
  else if effective_npc_name a npc_name = "" then
    ({ records := []
       mode := none
       used_fallback := false
       error := some { type := "invalid_npc_name", message := "NPC name is empty." } }, [])
  else if effective_top_k a top_k ≤ 0 then
    ({ records := []
       mode := none
       used_fallback := false
       error := some { type := "invalid_top_k", message := "top_k must be > 0." } }, [])
  else
    let env := build_env a (effective_npc_name a npc_name)
    let query_attempt := attempt a "query" normalized_query (effective_top_k a top_k)
      a.settings.memory.query_timeout_seconds env
    match query_attempt.1.result with
    | some r => (r, [query_attempt.2])
    | none =>
      let fallback_attempt := attempt a "search" normalized_query (effective_top_k a top_k)
        a.settings.memory.fallback_timeout_seconds env
      match fallback_attempt.1.result with
      | some r => (r, [query_attempt.2, fallback_attempt.2])
      | none =>
        ({ records := []
           mode := none
           used_fallback := true
           error := some
             { type := "both_failed"
               message := "Both qmd query and qmd search failed."
               query_error_type := query_attempt.1.error_type
               fallback_error_type := fallback_attempt.1.error_type } },
         [query_attempt.2, fallback_attempt.2])

/-! ## Mention routing (`discord/mention_listener.py`) -/

/-- The `UserLike` slice the router reads. -/
structure DUser where
  id : Int
  bot : Bool
deriving Repr, DecidableEq

/-- The `MessageLike` slice the router reads (`channel` is flattened to its
id). -/
structure DMessage where
  author : DUser
  channel_id : Int
  content : String
  mentions : List DUser
deriving Repr, DecidableEq

/-- `MentionRouterConfig` of `mention_listener.py`. -/
structure MentionRouterConfig where
  channel_id : Int
  ignore_bot_authors : Bool := true
deriving Repr, DecidableEq

/-- `MentionRouter.__init__`: rejects a non-positive channel id. -/
def mkMentionRouter (config : MentionRouterConfig) : Except String MentionRouterConfig :=
  if config.channel_id ≤ 0 then Except.error "channel_id must be a positive integer"
  else Except.ok config

/-- Python `pattern in content` on character lists: some tail of the haystack
starts with the pattern. -/
def charListContains (pattern : List Char) : List Char → Bool
  | [] => pattern.isEmpty
  | c :: rest => pattern.isPrefixOf (c :: rest) || charListContains pattern rest

/-- Python `pattern in content` on strings. -/
def strContains (haystack pattern : String) : Bool :=
  charListContains pattern.toList haystack.toList

/-- `MentionRouter._is_bot_mentioned`: a structured mention with the bot id,
or one of the textual encodings `<@id>` / `<@!id>` inside the content. -/
def is_bot_mentioned (message : DMessage) (bot_user_id : Int) : Bool :=
  message.mentions.any (fun mentioned => mentioned.id == bot_user_id) ||
    strContains message.content ("<@" ++ toString bot_user_id ++ ">") ||
    strContains message.content ("<@!" ++ toString bot_user_id ++ ">")

/-- `MentionRouter.should_dispatch`: `False` while the bot id is unknown;
`False` for bot authors when `ignore_bot_authors` is set; `False` outside the
configured channel; otherwise whether the bot is mentioned. -/
def should_dispatch (config : MentionRouterConfig) (message : DMessage)
    (bot_user_id : Option Int) : Bool :=
  match bot_user_id with
  | none => false
  | some bid =>
    if config.ignore_bot_authors && message.author.bot then false
    else if message.channel_id != config.channel_id then false
    else is_bot_mentioned message bid

/-- The trigger predicate exactly as claim C5 words it: channel matches, the
author is not a bot, the author is not the persona, and the persona is in the
mention set; `False` while the bot id is unknown.  Stated from the claim, to
be compared with `should_dispatch`. -/
def should_dispatch_per_claim (config : MentionRouterConfig) (message : DMessage)
    (bot_user_id : Option Int) : Bool :=
  match bot_user_id with
  | none => false
  | some bid =>
    (message.channel_id == config.channel_id) && !message.author.bot &&
      (message.author.id != bid) && is_bot_mentioned message bid

/-- The trigger predicate as amended: the author-identity check is not
performed, and the bot-author check is subject to the `ignore_bot_authors`
switch.  Stated as a flat conjunction, to be compared with the source
definition `should_dispatch`. -/
def should_dispatch_amended_spec (config : MentionRouterConfig) (message : DMessage)
    (bot_user_id : Option Int) : Bool :=
  match bot_user_id with
  | none => false
  | some bid =>
    (!(config.ignore_bot_authors && message.author.bot)) &&
      (message.channel_id == config.channel_id) && is_bot_mentioned message bid

/-! ## The response pipeline (`pipeline/response_pipeline.py`)

Each injected collaborator call is modelled by its outcome: `Except.ok` a
returned value, or `Except.error` a raised Python exception.  An exception
carries its class name and whether it is an instance of the two classes the
pipeline catches specifically. -/

/-- A raised Python exception as the pipeline can observe it. -/
structure PyExc where
  className : String
  isLlmClientError : Bool := false
  isSkillExcerptError : Bool := false
deriving Repr, DecidableEq

/-- `LlmResponse` of `llm/client.py`. -/
structure LlmResponse where
  text : String
  model : String
  stop_reason : Option String
  input_tokens : Nat
  output_tokens : Nat
deriving Repr, DecidableEq

/-- `PipelineOutcome` of `response_pipeline.py`. -/
structure PipelineOutcome where
  handled : Bool
  sent : Bool
  retrieval_mode : Option String
  retrieval_error_type : Option String
  prompt_tokens : Nat
  error_type : Option String
deriving Repr, DecidableEq

/-- The behaviour of one `on_message` invocation's collaborators: the
router verdict, the outcome of each external call the pipeline makes, and
the token estimate of the (pure, separately verified) prompt build. -/
structure PipelineDeps where
  shouldRespond : Bool
  collectHistory : Except PyExc (List String)
  retrieveMemories : Except PyExc RetrievalResult
  loadSkillExcerpt : Except PyExc String
  promptTokens : Nat
  completeResult : Except PyExc LlmResponse
  formatReplyResult : Except PyExc String
  sendResult : Except PyExc Unit
  scheduleResult : Except PyExc Unit

/-- The skill-excerpt resolution of `on_message` (source lines 155-165): a
blank supplied excerpt with a ruleset given calls the loader, catching only
`SkillExcerptError` (treated as no excerpt); any other loader exception
propagates. -/
def resolve_skill_excerpt (deps : PipelineDeps) (skill_rules_excerpt : String)
    (skill_ruleset : Option String) : Except PyExc String :=
  if pyStrip skill_rules_excerpt = "" ∧ skill_ruleset ≠ none then
    match deps.loadSkillExcerpt with
    | Except.ok s => Except.ok s
    | Except.error e =>
      if e.isSkillExcerptError then Except.ok "" else Except.error e
  else Except.ok skill_rules_excerpt

/-- `ResponsePipeline.on_message`: the first component is the call's outcome
(`Except.error` = an exception escaped the entry point), the second records
whether `sender.send_message` was invoked.  Mirrors the source: a negative
router verdict returns unhandled; a history-collection exception of any kind
is caught; the retriever call has no handler; a completion failure is caught
only for `LlmClientError`; the format-and-send block catches any exception;
an extraction-scheduling exception is swallowed. -/
def on_message (deps : PipelineDeps) (skill_rules_excerpt : String)
    (skill_ruleset : Option String) : Except PyExc PipelineOutcome × Bool :=
  if !deps.shouldRespond then
    (Except.ok
      { handled := false, sent := false, retrieval_mode := none,
        retrieval_error_type := none, prompt_tokens := 0, error_type := none },
     false)
  else
    match deps.collectHistory with
    | Except.error exc =>
      (Except.ok
        { handled := true, sent := false, retrieval_mode := none,
          retrieval_error_type := none, prompt_tokens := 0,
          error_type := some exc.className },
       false)
    | Except.ok _recent_messages =>
      match deps.retrieveMemories with
      | Except.error exc => (Except.error exc, false)
      | Except.ok retrieval =>
        let retrieval_error_type := retrieval.error.map (fun e => e.type)
        match resolve_skill_excerpt deps skill_rules_excerpt skill_ruleset with
        | Except.error exc => (Except.error exc, false)
        | Except.ok _excerpt =>
          match deps.completeResult with
          | Except.error exc =>
            if exc.isLlmClientError then
              (Except.ok
                { handled := true, sent := false, retrieval_mode := retrieval.mode,
                  retrieval_error_type := retrieval_error_type,
                  prompt_tokens := deps.promptTokens,
                  error_type := some exc.className },
               false)
            else (Except.error exc, false)
          | Except.ok _response =>
            match deps.formatReplyResult with
            | Except.error exc =>
              (Except.ok
                { handled := true, sent := false, retrieval_mode := retrieval.mode,
                  retrieval_error_type := retrieval_error_type,
                  prompt_tokens := deps.promptTokens,
                  error_type := some exc.className },
               false)
            | Except.ok _text =>
              match deps.sendResult with
              | Except.error exc =>
                (Except.ok
                  { handled := true, sent := false, retrieval_mode := retrieval.mode,
                    retrieval_error_type := retrieval_error_type,
                    prompt_tokens := deps.promptTokens,
                    error_type := some exc.className },
                 true)
              | Except.ok _ =>
                (Except.ok
                  { handled := true, sent := true, retrieval_mode := retrieval.mode,
                    retrieval_error_type := retrieval_error_type,
                    prompt_tokens := deps.promptTokens,
                    error_type := none },
                 true)

/-- The query-mode attempt `retrieve` makes after validation (its `_attempt`
call together with the invocation issued). -/
def query_attempt_of (a : QmdAdapter) (query : String) (npc_name : Option String)
    (top_k : Option Int) : Attempt × CallRecord :=
  attempt a "query" (normalize_query query a.max_query_chars) (effective_top_k a top_k)
    a.settings.memory.query_timeout_seconds (build_env a (effective_npc_name a npc_name))

/-- The search-mode attempt `retrieve` makes after a query-mode failure. -/
def fallback_attempt_of (a : QmdAdapter) (query : String) (npc_name : Option String)
    (top_k : Option Int) : Attempt × CallRecord :=
  attempt a "search" (normalize_query query a.max_query_chars) (effective_top_k a top_k)
    a.settings.memory.fallback_timeout_seconds (build_env a (effective_npc_name a npc_name))

/-! ## Spec-worded comparison definitions and concrete inputs -/

/-- The source-label extraction exactly as claim C9 words it: first present
non-empty string among `source`, `path`, `file`, `uri`, `id`, default
`"unknown"`.  Stated from the claim, to be compared with `pick_source`. -/
def pick_source_per_claim (item : JValue) : String :=
  let source := first_non_empty_str
    [jGet item "source", jGet item "path", jGet item "file",
     jGet item "uri", jGet item "id"]
  if source ≠ "" then source else "unknown"

/-- The stripped string value of a field when it is a non-blank string. -/
def strFieldValue? (item : JValue) (key : String) : Option String :=
  match jGet item key with
  | some (JValue.str s) => if pyStrip s = "" then none else some (pyStrip s)
  | _ => none

/-- The source-label extraction as amended: the first of the alias keys
`source`, `path`, `file`, `file_path`, `uri` holding a non-blank string
value, stripped, default `"unknown"`.  Stated spec-style (a scan over the
alias-key list), to be compared with the source definition `pick_source`. -/
def pick_source_amended_spec (item : JValue) : String :=
  ((["source", "path", "file", "file_path", "uri"].filterMap
    (strFieldValue? item)).head?).getD "unknown"

/-- A record item whose only source-bearing field is `id`. -/
def idOnlyItem : JValue :=
  JValue.obj [("text", JValue.str "t"), ("id", JValue.str "X")]

/-- A router for channel 200 with the default bot-author policy. -/
def exampleRouterConfig : MentionRouterConfig := { channel_id := 200 }

/-- A message in channel 200 authored by (non-bot) user 999 that mentions
user 999 — the persona mentioning case where author id equals the bot id. -/
def selfAuthoredMention : DMessage :=
  { author := { id := 999, bot := false }
    channel_id := 200
    content := ""
    mentions := [{ id := 999, bot := true }] }

/-- Concrete settings mirroring the suite fixture of `test_qmd_adapter.py`. -/
def exampleSettings : AppSettings :=
  { agent := { npc_name := "kovach" }
    memory :=
      { qmd_binary := "qmd"
        top_k := 7
        query_timeout_seconds := 4.5
        fallback_timeout_seconds := 2.5 }
    runtime := { data_home := "/tmp/homunculus-data" } }

/-- A runner whose query mode exits non-zero and whose search mode times
out. -/
def bothFailRunner (args : List String) (_env : List (String × String))
    (_timeout : Rat) : Except Unit CommandResult :=
  if args.get? 1 == some "query" then
    Except.ok { returncode := 1, stdout := none, timed_out := false, latency_ms := 11 }
  else
    Except.ok { returncode := -1, stdout := none, timed_out := true, latency_ms := 22 }

/-- An adapter wired to `bothFailRunner`. -/
def bothFailAdapter : QmdAdapter :=
  { settings := exampleSettings
    command_runner := bothFailRunner
    max_query_chars := 600
    environ := [] }

/-- A successful query-mode retrieval result with no records. -/
def emptyRetrieval : RetrievalResult :=
  { records := [], mode := some "query", used_fallback := false, error := none }

/-- A generic (non-`LlmClientError`) completion exception. -/
def valueErrorExc : PyExc := { className := "ValueError" }

/-- An `LlmClientError` completion exception. -/
def llmClientErrorExc : PyExc := { className := "LlmClientError", isLlmClientError := true }

/-- A generic history-collection exception. -/
def runtimeErrorExc : PyExc := { className := "RuntimeError" }

/-- Collaborator behaviour where the completion call raises a generic
(non-`LlmClientError`) exception. -/
def escapeDeps : PipelineDeps :=
  { shouldRespond := true
    collectHistory := Except.ok []
    retrieveMemories := Except.ok emptyRetrieval
    loadSkillExcerpt := Except.ok ""
    promptTokens := 42
    completeResult := Except.error valueErrorExc
    formatReplyResult := Except.ok "x"
    sendResult := Except.ok ()
    scheduleResult := Except.ok () }

/-- Collaborator behaviour where history collection raises. -/
def historyFailDeps : PipelineDeps :=
  { shouldRespond := true
    collectHistory := Except.error runtimeErrorExc
    retrieveMemories := Except.ok emptyRetrieval
    loadSkillExcerpt := Except.ok ""
    promptTokens := 0
    completeResult := Except.ok
      { text := "reply", model := "claude", stop_reason := some "end_turn",
        input_tokens := 100, output_tokens := 20 }
    formatReplyResult := Except.ok "r"
    sendResult := Except.ok ()
    scheduleResult := Except.ok () }

/-- Collaborator behaviour where the completion call raises an
`LlmClientError`. -/
def completionFailDeps : PipelineDeps :=
  { shouldRespond := true
    collectHistory := Except.ok ["hello"]
    retrieveMemories := Except.ok emptyRetrieval
    loadSkillExcerpt := Except.ok ""
    promptTokens := 57
    completeResult := Except.error llmClientErrorExc
    formatReplyResult := Except.ok "r"
    sendResult := Except.ok ()
    scheduleResult := Except.ok () }

/-! ## Helper lemmas -/

theorem length_truncate_le (text : Words) (budget : Nat) :
    (truncate_to_token_budget text budget).length ≤ budget := by
  unfold truncate_to_token_budget
  split_ifs with h1 h2
  · simp
  · exact h2
  · simp

theorem selectTailGo_isPre {α : Type} (tc : α → Nat) (budget : Nat) (lines : List α) :
    selectTailGo tc budget lines <+: lines := by
  induction lines generalizing budget with
  | nil => simp [selectTailGo]
  | cons x xs ih =>
    simp only [selectTailGo]
    split
    · obtain ⟨t, ht⟩ := ih (budget - tc x)
      exact ⟨t, by simp [ht]⟩
    · exact List.nil_prefix

/-! ## Claim theorems: router, source aliases, builder constructor -/

/-- C7: the suffix-greedy history selection returns a suffix of the input
list — the most recent lines, in original chronological order — and hence an
order-preserving subsequence of it. -/
theorem select_lines_from_tail_is_recent_suffix {α : Type} (lines : List α)
    (budget : Nat) (tc : α → Nat) :
    (select_lines_from_tail_with_budget lines budget tc).1 <:+ lines ∧
      (select_lines_from_tail_with_budget lines budget tc).1.Sublist lines := by
  have hpre := selectTailGo_isPre tc budget lines.reverse
  have hsuf : (selectTailGo tc budget lines.reverse).reverse <:+ lines := by
    have := List.reverse_suffix.mpr hpre
    simpa using this
  exact ⟨hsuf, hsuf.sublist⟩

/-- C5 (counterexample): a message authored by the persona identity itself
(non-bot author with the bot id), in the target channel and mentioning the
persona, is dispatched by `should_dispatch` although the claim requires the
trigger predicate to reject messages whose author is the persona identity. -/
theorem should_dispatch_accepts_self_authored_mention :
    should_dispatch exampleRouterConfig selfAuthoredMention (some 999) = true ∧
      should_dispatch_per_claim exampleRouterConfig selfAuthoredMention (some 999) = false := by
  constructor <;> rfl

/-- C5 (amended): `should_dispatch` is false while the bot id is unknown, and
otherwise true exactly when the bot-author gate passes (author is not a bot,
or bot authors are configured to be accepted), the channel matches, and the
persona is mentioned structurally or textually; no author-identity check is
performed. -/
theorem should_dispatch_amended_characterization (config : MentionRouterConfig)
    (message : DMessage) (bot_user_id : Option Int) :
    should_dispatch config message bot_user_id =
      should_dispatch_amended_spec config message bot_user_id := by
  cases bot_user_id with
  | none => rfl
  | some bid =>
    simp only [should_dispatch, should_dispatch_amended_spec]
    by_cases hbot : config.ignore_bot_authors && message.author.bot
    · simp [hbot]
    · by_cases hch : message.channel_id = config.channel_id
      · simp [hbot, hch]
      · simp [hbot, hch]

/-- C9 (counterexample): a record item whose only source-bearing field is
`id` gets source `"unknown"` from `_pick_source`, while the claimed alias
order (`source`, `path`, `file`, `uri`, `id`) would yield `"X"`. -/
theorem pick_source_ignores_id_alias :
    pick_source idOnlyItem = "unknown" ∧ pick_source_per_claim idOnlyItem = "X" := by
  constructor <;> rfl

/-- C9 (amended): the source label is the first present non-blank string
field among `source`, `path`, `file`, `file_path`, `uri` (in that order),
stripped, defaulting to `"unknown"` when none match. -/
theorem pick_source_alias_order (item : JValue) :
    pick_source item = pick_source_amended_spec item := by
  have key : ∀ (keys : List String),
      first_non_empty_str (keys.map (jGet item)) =
        ((keys.filterMap (strFieldValue? item)).head?).getD "" := by
    intro keys
    induction keys with
    | nil => rfl
    | cons k rest ih =>
      simp only [List.map_cons, List.filterMap_cons]
      cases hv : jGet item k with
      | none => simpa [first_non_empty_str, strFieldValue?, hv] using ih
      | some v =>
        cases v with
        | str s =>
          by_cases hs : pyStrip s = ""
          · simpa [first_non_empty_str, strFieldValue?, hv, hs] using ih
          · simp [first_non_empty_str, strFieldValue?, hv, hs]
        | null => simpa [first_non_empty_str, strFieldValue?, hv] using ih
        | jbool b => simpa [first_non_empty_str, strFieldValue?, hv] using ih
        | num q => simpa [first_non_empty_str, strFieldValue?, hv] using ih
        | arr xs => simpa [first_non_empty_str, strFieldValue?, hv] using ih
        | obj fs => simpa [first_non_empty_str, strFieldValue?, hv] using ih
  have hkeys := key ["source", "path", "file", "file_path", "uri"]
  have hne : ∀ s, s ∈ (["source", "path", "file", "file_path", "uri"].filterMap
      (strFieldValue? item)) → s ≠ "" := by
    intro s hs
    obtain ⟨k, _, hk⟩ := List.mem_filterMap.mp hs
    unfold strFieldValue? at hk
    split at hk
    · split_ifs at hk with h
      · cases hk
        simpa using h
    · cases hk
  unfold pick_source pick_source_amended_spec
  simp only [List.map] at hkeys
  rw [hkeys]
  cases hh : (["source", "path", "file", "file_path", "uri"].filterMap
      (strFieldValue? item)).head? with
  | none => simp
  | some s =>
    have : s ≠ "" := hne s (List.mem_of_mem_head? hh)
    simp [this]

/-- C10: the builder constructor rejects every non-positive token budget with
a `ValueError`, so every constructed builder carries a budget of at least 1. -/
theorem mkPromptBuilder_rejects_nonpositive_budget (token_budget : Int) :
    (token_budget ≤ 0 →
      mkPromptBuilder token_budget =
        Except.error "token_budget must be a positive integer.") ∧
    (∀ pb, mkPromptBuilder token_budget = Except.ok pb → 1 ≤ pb.token_budget) := by
  constructor
  · intro h
    simp [mkPromptBuilder, h]
  · intro pb hpb
    unfold mkPromptBuilder at hpb
    split_ifs at hpb with h
    cases hpb
    show (1 : Int) ≤ token_budget
    omega

/-! ## Prompt-builder lemmas and claim C1 -/

theorem final_clamp_total_le (token_budget : Nat) (system_prompt user_prompt : Words) :
    (final_clamp token_budget system_prompt user_prompt).total_tokens ≤ token_budget := by
  have hs := length_truncate_le system_prompt (token_budget - user_prompt.length)
  have hu := length_truncate_le user_prompt
    (token_budget - (truncate_to_token_budget system_prompt
      (token_budget - user_prompt.length)).length)
  unfold final_clamp
  split_ifs with h1 h2 <;> simp only [estimate_tokens] at * <;> omega

theorem final_clamp_entered_of_over (token_budget : Nat)
    (system_prompt user_prompt : Words)
    (h : token_budget < estimate_tokens system_prompt + estimate_tokens user_prompt) :
    (final_clamp token_budget system_prompt user_prompt).entered = true := by
  unfold final_clamp
  split_ifs with h1 <;> rfl

theorem memory_block_two_le (memory_lines : List Words) (budget_remaining : Nat) :
    2 ≤ (memory_step memory_lines budget_remaining).memory_block.length := by
  unfold memory_step
  split_ifs <;> simp [memoryLabelWords, memoryPlaceholderWords]

theorem memory_step_included_eq (memory_lines : List Words) (budget_remaining : Nat) :
    (memory_step memory_lines budget_remaining).included_count =
      (select_lines_with_budget memory_lines budget_remaining estimate_tokens).1.length := by
  unfold memory_step
  split_ifs <;> rfl

theorem memory_step_truncated_eq (memory_lines : List Words) (budget_remaining : Nat) :
    (memory_step memory_lines budget_remaining).truncated =
      (select_lines_with_budget memory_lines budget_remaining estimate_tokens).2 := by
  unfold memory_step
  split_ifs <;> rfl

theorem slwb_flag_of_lt {α : Type} (lines : List α) (budget : Nat) (tc : α → Nat)
    (h : (select_lines_with_budget lines budget tc).1.length < lines.length) :
    (select_lines_with_budget lines budget tc).2 = true := by
  simp only [select_lines_with_budget] at h ⊢
  simp [h]

theorem history_step_flag_of_lt (history_lines : List Words) (budget_remaining : Nat)
    (h : (history_step history_lines budget_remaining).included_count <
      history_lines.length) :
    (history_step history_lines budget_remaining).truncated = true := by
  simp only [history_step, select_lines_from_tail_with_budget] at h ⊢
  simpa using h

theorem build_flag_of_skill_dropped (token_budget : Nat)
    (system_fixed skill_excerpt : Words) (memory_lines history_lines : List Words)
    (h : skill_dropped token_budget system_fixed skill_excerpt) :
    (build token_budget system_fixed skill_excerpt memory_lines
      history_lines).was_truncated = true := by
  obtain ⟨hex, hne⟩ := h
  by_cases hbr : 0 < initial_budget_remaining token_budget system_fixed
  · -- budget remains: the skill step itself sets the flag
    have hcond : skill_excerpt ≠ [] ∧
        0 < initial_budget_remaining token_budget system_fixed := ⟨hex, hbr⟩
    have hinc : skill_excerpt_included token_budget system_fixed skill_excerpt =
        truncate_to_token_budget skill_excerpt
          (initial_budget_remaining token_budget system_fixed -
            estimate_tokens gameRulesLabelWords) := by
      unfold skill_excerpt_included
      rw [if_pos hcond]
    rw [hinc] at hne
    have hskill : (skill_step skill_excerpt
        (initial_budget_remaining token_budget system_fixed)
        (decide (token_budget < initial_used_tokens system_fixed))).was_truncated =
          true := by
      unfold skill_step
      rw [if_pos hcond]
      by_cases hexc : truncate_to_token_budget skill_excerpt
          (initial_budget_remaining token_budget system_fixed -
            estimate_tokens gameRulesLabelWords) ≠ []
      · rw [if_pos hexc]
        simp [hne]
      · rw [if_neg hexc]
    simp only [build, Bool.or_eq_true, decide_eq_true_eq]
    exact Or.inl (Or.inl (Or.inl (Or.inl hskill)))
  · -- no budget remains: the fixed cost already reaches the budget
    by_cases hwt : token_budget < initial_used_tokens system_fixed
    · have hskill : (skill_step skill_excerpt
          (initial_budget_remaining token_budget system_fixed)
          (decide (token_budget < initial_used_tokens system_fixed))).was_truncated =
            true := by
        unfold skill_step
        rw [if_neg (by tauto)]
        simp [hwt]
      simp only [build, Bool.or_eq_true, decide_eq_true_eq]
      exact Or.inl (Or.inl (Or.inl (Or.inl hskill)))
    · -- fixed cost equals the budget exactly: the assembled prompt overshoots
      -- through the always-present memory label, so the final clamp fires
      have heq : initial_used_tokens system_fixed = token_budget := by
        unfold initial_budget_remaining at hbr
        omega
      have hskill : skill_step skill_excerpt
          (initial_budget_remaining token_budget system_fixed)
          (decide (token_budget < initial_used_tokens system_fixed)) =
            { skillSection := []
              budget_remaining := initial_budget_remaining token_budget system_fixed
              was_truncated := decide (token_budget < initial_used_tokens system_fixed) } := by
        unfold skill_step
        rw [if_neg (by tauto)]
      have hmem := memory_block_two_le memory_lines
        ((skill_step skill_excerpt (initial_budget_remaining token_budget system_fixed)
          (decide (token_budget < initial_used_tokens system_fixed))).budget_remaining)
      have hover : token_budget < estimate_tokens (system_fixed ++
          (skill_step skill_excerpt (initial_budget_remaining token_budget system_fixed)
            (decide (token_budget < initial_used_tokens system_fixed))).skillSection ++
          (memory_step memory_lines
            ((skill_step skill_excerpt (initial_budget_remaining token_budget system_fixed)
              (decide (token_budget < initial_used_tokens system_fixed))).budget_remaining)).memory_block) +
          estimate_tokens (userPrefixWords ++
            (history_step history_lines
              ((memory_step memory_lines
                ((skill_step skill_excerpt (initial_budget_remaining token_budget system_fixed)
                  (decide (token_budget < initial_used_tokens system_fixed))).budget_remaining)).budget_remaining)).history_block ++
            userSuffixWords) := by
        rw [hskill] at hmem ⊢
        simp only [estimate_tokens, List.length_append, List.length_nil] at *
        have hu : initial_used_tokens system_fixed =
            system_fixed.length + userPrefixWords.length + userSuffixWords.length := rfl
        omega
      have hent := final_clamp_entered_of_over _ _ _ hover
      simp only [build, Bool.or_eq_true, decide_eq_true_eq]
      exact Or.inl (Or.inr hent)

theorem build_flag_of_memory_dropped (token_budget : Nat)
    (system_fixed skill_excerpt : Words) (memory_lines history_lines : List Words)
    (h : (build token_budget system_fixed skill_excerpt memory_lines
      history_lines).included_memory_count < memory_lines.length) :
    (build token_budget system_fixed skill_excerpt memory_lines
      history_lines).was_truncated = true := by
  simp only [build] at h ⊢
  rw [memory_step_included_eq] at h
  have := slwb_flag_of_lt _ _ _ h
  rw [memory_step_truncated_eq, this]
  simp

theorem build_flag_of_history_dropped (token_budget : Nat)
    (system_fixed skill_excerpt : Words) (memory_lines history_lines : List Words)
    (h : (build token_budget system_fixed skill_excerpt memory_lines
      history_lines).included_history_count < history_lines.length) :
    (build token_budget system_fixed skill_excerpt memory_lines
      history_lines).was_truncated = true := by
  simp only [build] at h ⊢
  have := history_step_flag_of_lt _ _ h
  rw [this]
  simp

/-- C1: for every fixed system block (hence every character card), skill
excerpt, memory-line sequence and history-line sequence, the built prompt's
reported token estimate is at most the configured budget after the final
two-pass clamp, and the truncation flag is set whenever the skill excerpt,
the memory section, or the history section had content dropped. -/
theorem build_respects_budget_and_flags_truncation (token_budget : Nat)
    (system_fixed skill_excerpt : Words) (memory_lines history_lines : List Words) :
    (build token_budget system_fixed skill_excerpt memory_lines
      history_lines).estimated_input_tokens ≤ token_budget ∧
    ((skill_dropped token_budget system_fixed skill_excerpt ∨
      (build token_budget system_fixed skill_excerpt memory_lines
        history_lines).included_memory_count < memory_lines.length ∨
      (build token_budget system_fixed skill_excerpt memory_lines
        history_lines).included_history_count < history_lines.length) →
      (build token_budget system_fixed skill_excerpt memory_lines
        history_lines).was_truncated = true) := by
  constructor
  · simp only [build]
    exact final_clamp_total_le _ _ _
  · rintro (hs | hm | hh)
    · exact build_flag_of_skill_dropped _ _ _ _ _ hs
    · exact build_flag_of_memory_dropped _ _ _ _ _ hm
    · exact build_flag_of_history_dropped _ _ _ _ _ hh

/-! ## Adapter lemmas and claims C3, C4, C8 -/

theorem attempt_call_eq (a : QmdAdapter) (mode query : String) (top_k : Int)
    (timeout_seconds : Rat) (env : List (String × String)) :
    (attempt a mode query top_k timeout_seconds env).2 =
      { args := [a.settings.memory.qmd_binary, mode, "--json", "-n",
          toString top_k, query]
        env := env
        timeout := timeout_seconds } := by
  simp only [attempt]
  split
  · rfl
  · split_ifs <;> try rfl
    split <;> rfl

theorem attempt_result_error_none (a : QmdAdapter) (mode query : String)
    (top_k : Int) (timeout_seconds : Rat) (env : List (String × String))
    (r : RetrievalResult)
    (h : (attempt a mode query top_k timeout_seconds env).1.result = some r) :
    r.error = none := by
  simp only [attempt] at h
  split at h
  · simp at h
  · split_ifs at h <;>
    first
    | simp at h
    | (split at h
       · simp at h
       · simp at h
         rw [← h])

theorem retrieve_query_success (a : QmdAdapter) (query : String)
    (npc_name : Option String) (top_k : Option Int)
    (h1 : ¬ normalize_query query a.max_query_chars = "")
    (h2 : ¬ effective_npc_name a npc_name = "")
    (h3 : ¬ effective_top_k a top_k ≤ 0)
    (r : RetrievalResult)
    (hq : (query_attempt_of a query npc_name top_k).1.result = some r) :
    retrieve a query npc_name top_k = (r, [(query_attempt_of a query npc_name top_k).2]) := by
  simp only [query_attempt_of] at hq
  simp only [retrieve, query_attempt_of]
  rw [if_neg h1, if_neg h2, if_neg h3, hq]

theorem retrieve_fallback_success (a : QmdAdapter) (query : String)
    (npc_name : Option String) (top_k : Option Int)
    (h1 : ¬ normalize_query query a.max_query_chars = "")
    (h2 : ¬ effective_npc_name a npc_name = "")
    (h3 : ¬ effective_top_k a top_k ≤ 0)
    (hq : (query_attempt_of a query npc_name top_k).1.result = none)
    (r : RetrievalResult)
    (hf : (fallback_attempt_of a query npc_name top_k).1.result = some r) :
    retrieve a query npc_name top_k =
      (r, [(query_attempt_of a query npc_name top_k).2,
           (fallback_attempt_of a query npc_name top_k).2]) := by
  simp only [query_attempt_of] at hq
  simp only [fallback_attempt_of] at hf
  simp only [retrieve, query_attempt_of, fallback_attempt_of]
  rw [if_neg h1, if_neg h2, if_neg h3, hq, hf]

theorem retrieve_both_fail_eq (a : QmdAdapter) (query : String)
    (npc_name : Option String) (top_k : Option Int)
    (h1 : ¬ normalize_query query a.max_query_chars = "")
    (h2 : ¬ effective_npc_name a npc_name = "")
    (h3 : ¬ effective_top_k a top_k ≤ 0)
    (hq : (query_attempt_of a query npc_name top_k).1.result = none)
    (hf : (fallback_attempt_of a query npc_name top_k).1.result = none) :
    retrieve a query npc_name top_k =
      ({ records := []
         mode := none
         used_fallback := true
         error := some
           { type := "both_failed"
             message := "Both qmd query and qmd search failed."
             query_error_type := (query_attempt_of a query npc_name top_k).1.error_type
             fallback_error_type :=
               (fallback_attempt_of a query npc_name top_k).1.error_type } },
       [(query_attempt_of a query npc_name top_k).2,
        (fallback_attempt_of a query npc_name top_k).2]) := by
  simp only [query_attempt_of] at hq ⊢
  simp only [fallback_attempt_of] at hf ⊢
  simp only [retrieve]
  rw [if_neg h1, if_neg h2, if_neg h3, hq, hf]

/-- C3: when the validated query-mode attempt and the search-mode attempt
both fail, `retrieve` returns (never raises — the embedding is a total
function) a result with zero records and a `both_failed` error carrying the
classified failure kind of each stage. -/
theorem retrieve_both_failed_terminal (a : QmdAdapter) (query : String)
    (npc_name : Option String) (top_k : Option Int)
    (h1 : ¬ normalize_query query a.max_query_chars = "")
    (h2 : ¬ effective_npc_name a npc_name = "")
    (h3 : ¬ effective_top_k a top_k ≤ 0)
    (hq : (query_attempt_of a query npc_name top_k).1.result = none)
    (hf : (fallback_attempt_of a query npc_name top_k).1.result = none) :
    (retrieve a query npc_name top_k).1 =
      { records := []
        mode := none
        used_fallback := true
        error := some
          { type := "both_failed"
            message := "Both qmd query and qmd search failed."
            query_error_type := (query_attempt_of a query npc_name top_k).1.error_type
            fallback_error_type :=
              (fallback_attempt_of a query npc_name top_k).1.error_type } } := by
  rw [retrieve_both_fail_eq a query npc_name top_k h1 h2 h3 hq hf]

/-- C3 (witness): with a runner whose query mode exits non-zero and whose
search mode times out, both attempts fail and the terminal `both_failed`
result carries the two classified kinds. -/
theorem retrieve_both_failed_terminal_witness :
    (retrieve bothFailAdapter "critical question" none none).1 =
      { records := []
        mode := none
        used_fallback := true
        error := some
          { type := "both_failed"
            message := "Both qmd query and qmd search failed."
            query_error_type :=
              (query_attempt_of bothFailAdapter "critical question" none none).1.error_type
            fallback_error_type :=
              (fallback_attempt_of bothFailAdapter "critical question" none none).1.error_type } } :=
  retrieve_both_failed_terminal bothFailAdapter "critical question" none none
    (by decide) (by decide) (by decide) (by rfl) (by rfl)

/-- C4: past validation, a classified query-mode failure leads to exactly the
two-invocation trace — the query call with the query timeout, then one search
call with the separately configured fallback timeout — while a query-mode
success leads to the single query invocation and no search call. -/
theorem retrieve_fallback_exactly_once (a : QmdAdapter) (query : String)
    (npc_name : Option String) (top_k : Option Int)
    (h1 : ¬ normalize_query query a.max_query_chars = "")
    (h2 : ¬ effective_npc_name a npc_name = "")
    (h3 : ¬ effective_top_k a top_k ≤ 0) :
    ((query_attempt_of a query npc_name top_k).1.result = none →
      (retrieve a query npc_name top_k).2 =
        [(query_attempt_of a query npc_name top_k).2,
         (fallback_attempt_of a query npc_name top_k).2] ∧
      (fallback_attempt_of a query npc_name top_k).2.timeout =
        a.settings.memory.fallback_timeout_seconds ∧
      (fallback_attempt_of a query npc_name top_k).2.args.get? 1 = some "search" ∧
      (query_attempt_of a query npc_name top_k).2.timeout =
        a.settings.memory.query_timeout_seconds ∧
      (query_attempt_of a query npc_name top_k).2.args.get? 1 = some "query") ∧
    (∀ r, (query_attempt_of a query npc_name top_k).1.result = some r →
      (retrieve a query npc_name top_k).2 =
        [(query_attempt_of a query npc_name top_k).2]) := by
  constructor
  · intro hq
    refine ⟨?_, ?_, ?_, ?_, ?_⟩
    · cases hf : (fallback_attempt_of a query npc_name top_k).1.result with
      | some r => rw [retrieve_fallback_success a query npc_name top_k h1 h2 h3 hq r hf]
      | none => rw [retrieve_both_fail_eq a query npc_name top_k h1 h2 h3 hq hf]
    · rw [fallback_attempt_of, attempt_call_eq]
    · rw [fallback_attempt_of, attempt_call_eq]
      rfl
    · rw [query_attempt_of, attempt_call_eq]
    · rw [query_attempt_of, attempt_call_eq]
      rfl
  · intro r hq
    rw [retrieve_query_success a query npc_name top_k h1 h2 h3 r hq]

/-- C4 (witness): with the failing runner, the trace is the query call with
timeout 4.5 followed by exactly one search call with fallback timeout 2.5. -/
theorem retrieve_fallback_exactly_once_witness :
    ((query_attempt_of bothFailAdapter "critical question" none none).1.result = none →
      (retrieve bothFailAdapter "critical question" none none).2 =
        [(query_attempt_of bothFailAdapter "critical question" none none).2,
         (fallback_attempt_of bothFailAdapter "critical question" none none).2] ∧
      (fallback_attempt_of bothFailAdapter "critical question" none none).2.timeout =
        bothFailAdapter.settings.memory.fallback_timeout_seconds ∧
      (fallback_attempt_of bothFailAdapter "critical question" none none).2.args.get? 1 =
        some "search" ∧
      (query_attempt_of bothFailAdapter "critical question" none none).2.timeout =
        bothFailAdapter.settings.memory.query_timeout_seconds ∧
      (query_attempt_of bothFailAdapter "critical question" none none).2.args.get? 1 =
        some "query") ∧
    (∀ r, (query_attempt_of bothFailAdapter "critical question" none none).1.result = some r →
      (retrieve bothFailAdapter "critical question" none none).2 =
        [(query_attempt_of bothFailAdapter "critical question" none none).2]) :=
  retrieve_fallback_exactly_once bothFailAdapter "critical question" none none
    (by decide) (by decide) (by decide)

/-- C8 (counterexample): a whitespace-only query yields a result whose error
is present (`invalid_query`) while `used_fallback` is false — an error in a
result that did not attempt a fallback, contradicting the claimed
`error ≠ none → used_fallback` invariant. -/
theorem retrieve_validation_error_without_fallback :
    (retrieve bothFailAdapter "   " none none).1.error ≠ none ∧
      (retrieve bothFailAdapter "   " none none).1.used_fallback = false := by
  constructor
  · decide
  · rfl

/-- C8 (amended): whenever a retrieval result carries an error, it carries no
records, and it carries `used_fallback = true` exactly when the error is the
`both_failed` error of the two-attempt path; the three validation errors are
returned before any attempt with `used_fallback = false`. -/
theorem retrieve_error_implies_no_records (a : QmdAdapter) (query : String)
    (npc_name : Option String) (top_k : Option Int) (err : RetrievalError)
    (h : (retrieve a query npc_name top_k).1.error = some err) :
    (retrieve a query npc_name top_k).1.records = [] ∧
      ((retrieve a query npc_name top_k).1.used_fallback = true ↔
        err.type = "both_failed") := by
  by_cases h1 : normalize_query query a.max_query_chars = ""
  · have hv : (retrieve a query npc_name top_k).1 =
        { records := []
          mode := none
          used_fallback := false
          error := some
            { type := "invalid_query"
              message := "Query must contain non-whitespace characters." } } := by
      simp only [retrieve]
      rw [if_pos h1]
    rw [hv] at h ⊢
    simp only [Option.some.injEq] at h
    subst h
    refine ⟨rfl, ?_⟩
    simp
  · by_cases h2 : effective_npc_name a npc_name = ""
    · have hv : (retrieve a query npc_name top_k).1 =
          { records := []
            mode := none
            used_fallback := false
            error := some { type := "invalid_npc_name", message := "NPC name is empty." } } := by
        simp only [retrieve]
        rw [if_neg h1, if_pos h2]
      rw [hv] at h ⊢
      simp only [Option.some.injEq] at h
      subst h
      refine ⟨rfl, ?_⟩
      simp
    · by_cases h3 : effective_top_k a top_k ≤ 0
      · have hv : (retrieve a query npc_name top_k).1 =
            { records := []
              mode := none
              used_fallback := false
              error := some { type := "invalid_top_k", message := "top_k must be > 0." } } := by
          simp only [retrieve]
          rw [if_neg h1, if_neg h2, if_pos h3]
        rw [hv] at h ⊢
        simp only [Option.some.injEq] at h
        subst h
        refine ⟨rfl, ?_⟩
        simp
      · cases hq : (query_attempt_of a query npc_name top_k).1.result with
        | some r =>
          have hv := retrieve_query_success a query npc_name top_k h1 h2 h3 r hq
          have herr := attempt_result_error_none a "query"
            (normalize_query query a.max_query_chars) (effective_top_k a top_k)
            a.settings.memory.query_timeout_seconds
            (build_env a (effective_npc_name a npc_name)) r
            (by simpa [query_attempt_of] using hq)
          rw [hv] at h
          simp only at h
          rw [herr] at h
          cases h
        | none =>
          cases hf : (fallback_attempt_of a query npc_name top_k).1.result with
          | some r =>
            have hv := retrieve_fallback_success a query npc_name top_k h1 h2 h3 hq r hf
            have herr := attempt_result_error_none a "search"
              (normalize_query query a.max_query_chars) (effective_top_k a top_k)
              a.settings.memory.fallback_timeout_seconds
              (build_env a (effective_npc_name a npc_name)) r
              (by simpa [fallback_attempt_of] using hf)
            rw [hv] at h
            simp only at h
            rw [herr] at h
            cases h
          | none =>
            have hv := retrieve_both_fail_eq a query npc_name top_k h1 h2 h3 hq hf
            rw [hv] at h ⊢
            simp only [Option.some.injEq] at h
            subst h
            refine ⟨rfl, ?_⟩
            simp

/-- C8 (amended, witness): a whitespace-only query carries the
`invalid_query` error, no records, and `used_fallback = false`, matching the
amended characterization. -/
theorem retrieve_error_implies_no_records_witness :
    (retrieve bothFailAdapter "   " none none).1.records = [] ∧
      ((retrieve bothFailAdapter "   " none none).1.used_fallback = true ↔
        ({ type := "invalid_query"
           message := "Query must contain non-whitespace characters." } :
          RetrievalError).type = "both_failed") :=
  retrieve_error_implies_no_records bothFailAdapter "   " none none
    { type := "invalid_query"
      message := "Query must contain non-whitespace characters." } (by rfl)

/-! ## Pipeline claims C2 and C6 -/

/-- C2 (counterexample): a completion call that raises a generic exception —
one that is not an `LlmClientError` — escapes `on_message` uncaught: the
entry point does not return a `PipelineOutcome`, contradicting the claim that
no exception escapes for any collaborator behaviour. -/
theorem pipeline_completion_exception_escapes :
    (on_message escapeDeps "persona rules" none).1 = Except.error valueErrorExc := by
  rfl

/-- C2 (amended): `on_message` returns a `PipelineOutcome` — with every
triggered failure reported as a handled, not-sent outcome carrying an error
kind — provided the retriever returns a value rather than raising, completion
failures are `LlmClientError`s, and skill-excerpt-load failures are
`SkillExcerptError`s; exceptions outside those collaborator contracts
propagate out of the entry point. -/
theorem on_message_total_when_collaborators_keep_contracts (deps : PipelineDeps)
    (skill_rules_excerpt : String) (skill_ruleset : Option String)
    (hret : ∀ exc, deps.retrieveMemories ≠ Except.error exc)
    (hcomp : ∀ exc, deps.completeResult = Except.error exc → exc.isLlmClientError = true)
    (hload : ∀ exc, deps.loadSkillExcerpt = Except.error exc →
      exc.isSkillExcerptError = true) :
    ∃ outcome, (on_message deps skill_rules_excerpt skill_ruleset).1 = Except.ok outcome ∧
      (outcome.handled = true → outcome.sent = true ∨ outcome.error_type ≠ none) := by
  by_cases htrig : deps.shouldRespond
  · cases hh : deps.collectHistory with
    | error exc =>
      refine ⟨⟨true, false, none, none, 0, some exc.className⟩, ?_, ?_⟩
      · simp [on_message, htrig, hh]
      · intro _
        right
        simp
    | ok recent =>
      cases hr : deps.retrieveMemories with
      | error exc => exact absurd hr (hret exc)
      | ok retrieval =>
        have hsk : ∃ excerpt, resolve_skill_excerpt deps skill_rules_excerpt
            skill_ruleset = Except.ok excerpt := by
          unfold resolve_skill_excerpt
          split_ifs with hcond
          · cases hl : deps.loadSkillExcerpt with
            | ok s => exact ⟨s, rfl⟩
            | error exc =>
              have := hload exc hl
              exact ⟨"", by simp [this]⟩
          · exact ⟨skill_rules_excerpt, rfl⟩
        obtain ⟨excerpt, hsk⟩ := hsk
        cases hc : deps.completeResult with
        | error exc =>
          have hllm := hcomp exc hc
          refine ⟨⟨true, false, retrieval.mode, retrieval.error.map (fun e => e.type),
            deps.promptTokens, some exc.className⟩, ?_, ?_⟩
          · simp [on_message, htrig, hh, hr, hsk, hc, hllm]
          · intro _
            right
            simp
        | ok response =>
          cases hfmt : deps.formatReplyResult with
          | error exc =>
            refine ⟨⟨true, false, retrieval.mode, retrieval.error.map (fun e => e.type),
              deps.promptTokens, some exc.className⟩, ?_, ?_⟩
            · simp [on_message, htrig, hh, hr, hsk, hc, hfmt]
            · intro _
              right
              simp
          | ok text =>
            cases hsend : deps.sendResult with
            | error exc =>
              refine ⟨⟨true, false, retrieval.mode, retrieval.error.map (fun e => e.type),
                deps.promptTokens, some exc.className⟩, ?_, ?_⟩
              · simp [on_message, htrig, hh, hr, hsk, hc, hfmt, hsend]
              · intro _
                right
                simp
            | ok _ =>
              refine ⟨⟨true, true, retrieval.mode, retrieval.error.map (fun e => e.type),
                deps.promptTokens, none⟩, ?_, ?_⟩
              · simp [on_message, htrig, hh, hr, hsk, hc, hfmt, hsend]
              · intro _
                left
                rfl
  · refine ⟨⟨false, false, none, none, 0, none⟩, ?_, ?_⟩
    · simp [on_message, htrig]
    · intro hhandled
      cases hhandled

/-- C2 (amended, witness): with a history provider that raises and all other
collaborators keeping their contracts, the pipeline still returns an outcome,
and a triggered unsent outcome carries an error kind. -/
theorem on_message_total_witness :
    ∃ outcome, (on_message historyFailDeps "" none).1 = Except.ok outcome ∧
      (outcome.handled = true → outcome.sent = true ∨ outcome.error_type ≠ none) :=
  on_message_total_when_collaborators_keep_contracts historyFailDeps "" none
    (fun exc h => by simp [historyFailDeps] at h)
    (fun exc h => by simp [historyFailDeps] at h)
    (fun exc h => by simp [historyFailDeps] at h)

/-- C6: when the trigger matched, history and retrieval produced values, the
skill excerpt resolved, and the completion call raises an `LlmClientError`,
`on_message` returns the handled, not-sent outcome carrying the completion
error kind — and the sender is never invoked (the second component is
false). -/
theorem on_message_completion_error_outcome (deps : PipelineDeps)
    (skill_rules_excerpt : String) (skill_ruleset : Option String)
    (recent : List String) (retrieval : RetrievalResult) (excerpt : String)
    (exc : PyExc)
    (htrig : deps.shouldRespond = true)
    (hhist : deps.collectHistory = Except.ok recent)
    (hret : deps.retrieveMemories = Except.ok retrieval)
    (hskill : resolve_skill_excerpt deps skill_rules_excerpt skill_ruleset =
      Except.ok excerpt)
    (hcomp : deps.completeResult = Except.error exc)
    (hllm : exc.isLlmClientError = true) :
    on_message deps skill_rules_excerpt skill_ruleset =
      (Except.ok
        { handled := true
          sent := false
          retrieval_mode := retrieval.mode
          retrieval_error_type := retrieval.error.map (fun e => e.type)
          prompt_tokens := deps.promptTokens
          error_type := some exc.className },
       false) := by
  simp [on_message, htrig, hhist, hret, hskill, hcomp, hllm]

/-- C6 (witness): with concrete collaborators whose completion call raises an
`LlmClientError`, the outcome is handled, unsent, carries the error class
name, and the sender was not invoked. -/
theorem on_message_completion_error_outcome_witness :
    on_message completionFailDeps "" none =
      (Except.ok
        { handled := true
          sent := false
          retrieval_mode := emptyRetrieval.mode
          retrieval_error_type := emptyRetrieval.error.map (fun e => e.type)
          prompt_tokens := completionFailDeps.promptTokens
          error_type := some llmClientErrorExc.className },
       false) :=
  on_message_completion_error_outcome completionFailDeps "" none
    ["hello"] emptyRetrieval "" llmClientErrorExc
    (by rfl) (by rfl) (by rfl) (by rfl) (by rfl) (by rfl)

end Homunculus
